import Mathlib

/-!
Shallow embedding of the wine-quality data pipeline (Rust sources:
src/ingestion.rs, src/transformation.rs, src/storage.rs).

Modelling conventions:
* A polars DataFrame is a list of named, typed columns; every cell is an
  optional rational number (Float64 and Int32 cells are both embedded into
  the rationals, since the claims under study concern structure, nullness,
  ordering and control flow rather than floating-point rounding).
* Fallible Rust code returning anyhow Result is embedded as Except String
  (errors carry a human-readable message, as in the source; anyhow context
  wrapping is modelled by prepending the context text).
* The asynchronous bulk writer is modelled by explicit per-row task
  outcomes: each spawned task either panics (a tokio JoinError) or
  completes with the Except value that the task body returned.
-/

/-- The two cell dtypes the pipeline touches: polars Float64 and Int32. -/
inductive DType where
  | f64
  | i32
deriving DecidableEq

/-- One named, typed polars column; cells are nullable (None models a null). -/
structure Column where
  name : String
  dtype : DType
  vals : List (Option ℚ)
deriving DecidableEq

/-- A polars DataFrame: an ordered list of named columns. -/
structure DataFrame where
  cols : List Column
deriving DecidableEq

/-- Row count of a DataFrame (all columns of a well-formed frame share it). -/
def DataFrame.height (df : DataFrame) : Nat :=
  match df.cols with
  | [] => 0
  | c :: _ => c.vals.length

/-- Rust: df.column(name) - looks a column up by name, failing if absent. -/
def DataFrame.column (df : DataFrame) (name : String) : Except String Column :=
  match df.cols.find? (fun c => c.name = name) with
  | some c => Except.ok c
  | none => Except.error ("Error fetching column " ++ name)

/-- Rust: series.f64() - views a column as Float64, failing on a dtype mismatch. -/
def Column.f64 (c : Column) : Except String (List (Option ℚ)) :=
  if c.dtype = DType.f64 then Except.ok c.vals
  else Except.error ("Error converting " ++ c.name ++ " column to f64")

/-- Rust: series.i32() - views a column as Int32, failing on a dtype mismatch. -/
def Column.i32 (c : Column) : Except String (List (Option ℚ)) :=
  if c.dtype = DType.i32 then Except.ok c.vals
  else Except.error ("Error converting " ++ c.name ++ " column to i32")

/-- Insertion of one rational into an already sorted list. -/
def insert_sorted (x : ℚ) : List ℚ → List ℚ
  | [] => [x]
  | y :: ys => if x ≤ y then x :: y :: ys else y :: insert_sorted x ys

/-- Insertion sort on rationals (executable stand-in for the sort inside
the polars median kernel). -/
def sort_rationals : List ℚ → List ℚ
  | [] => []
  | x :: xs => insert_sorted x (sort_rationals xs)

/-- Median of a list of (non-null) values, as the polars median kernel
computes it: none on an empty list, the middle element for odd length,
the mean of the two middle elements for even length. -/
def median_opt (xs : List ℚ) : Option ℚ :=
  let s := sort_rationals xs
  let n := s.length
  if n = 0 then none
  else if n % 2 = 1 then some (s.getD (n / 2) 0)
  else some ((s.getD (n / 2 - 1) 0 + s.getD (n / 2) 0) / 2)

/-- Rust median_value (src/transformation.rs, lines 62-69): fetches the
column, views it as Float64 and takes the median over its non-null
values, failing when the column is absent, not Float64, or the median is
undefined because every value is null. -/
def median_value (df : DataFrame) (column : String) : Except String ℚ := do
  let c ← df.column column
  let vals ← c.f64
  match median_opt (vals.filterMap id) with
  | some m => Except.ok m
  | none => Except.error ("Error calculating median for " ++ column ++ " column")

/-- Rust: col(name).fill_null(lit(m)) applied to the cells of one column -
every null cell becomes m, non-null cells are unchanged. -/
def fill_null (vals : List (Option ℚ)) (m : ℚ) : List (Option ℚ) :=
  vals.map (fun v => some (v.getD m))

/-- Rust: df.lazy().with_column(col(name).fill_null(lit(m))) - replaces
the named column by its null-filled version, leaving every other column
untouched. -/
def with_column_fill_null (df : DataFrame) (name : String) (m : ℚ) : DataFrame :=
  ⟨df.cols.map (fun c =>
    if c.name = name then ⟨c.name, c.dtype, fill_null c.vals m⟩ else c)⟩

/-- Rust clean_data (src/transformation.rs, lines 45-59): computes the
medians of the two columns "fixed acidity" and "volatile acidity" and
fills nulls in exactly those two columns with their medians. The source
contains the placeholder comment "Repeat for other columns..." but no
code for the remaining ten columns, so no other column is read or filled. -/
def clean_data (df : DataFrame) : Except String DataFrame := do
  let median_fixed_acidity ← median_value df "fixed acidity"
  let median_volatile_acidity ← median_value df "volatile acidity"
  let df1 := with_column_fill_null df "fixed acidity" median_fixed_acidity
  let df2 := with_column_fill_null df1 "volatile acidity" median_volatile_acidity
  Except.ok df2

/-- Rust normalize_data (src/transformation.rs, lines 80-89): the body is
df.lazy().collect() with no transformation attached (the scaling step is
only a placeholder comment in the source), so the frame is returned
unchanged. -/
def normalize_data (df : DataFrame) : Except String DataFrame :=
  Except.ok df

/-- Rust validate_data (src/transformation.rs, lines 100-109): the body is
df.lazy().collect() with no filter attached (the row-removal step is only
a placeholder comment in the source), so the frame is returned unchanged. -/
def validate_data (df : DataFrame) : Except String DataFrame :=
  Except.ok df

/-- Rust transform_data (src/transformation.rs, lines 29-34): clean, then
normalize, then validate, propagating the first failure. -/
def transform_data (df : DataFrame) : Except String DataFrame := do
  let df ← clean_data df
  let df ← normalize_data df
  let df ← validate_data df
  Except.ok df

/-- The three-stage pipeline exactly as the specification words it: apply
clean, stop on its failure, otherwise apply normalize, stop on its
failure, otherwise apply validate. Written from the spec, to be compared
with transform_data, which is written from the source. -/
def transform_pipeline_spec (df : DataFrame) : Except String DataFrame :=
  match clean_data df with
  | Except.error e => Except.error e
  | Except.ok d1 =>
    match normalize_data d1 with
    | Except.error e => Except.error e
    | Except.ok d2 => validate_data d2

/-- True when no cell of any column of the frame is null. -/
def DataFrame.null_free (df : DataFrame) : Bool :=
  df.cols.all (fun c => c.vals.all (fun v => v.isSome))

/-- True when the named column exists and contains the given cell value
(used to exhibit concrete nulls and concrete out-of-range values). -/
def df_contains (df : DataFrame) (name : String) (v : Option ℚ) : Bool :=
  df.cols.any (fun c => c.name = name && c.vals.contains v)

/-- The error produced when the retry budget is exhausted: the last
underlying ingestion error wrapped with an anyhow context message
(Rust: Err(e).context("Max retry attempts reached")). -/
structure RetryError where
  ctxMsg : String
  cause : String
deriving DecidableEq

/-- Rust retry_ingest loop body (src/ingestion.rs, lines 53-68). The
outcome of the i-th call of ingest_csv (0-based) is abstracted as the
function ingest : Nat -> Except String DataFrame, since the file named by
file_path can change between attempts. The counter attempts holds the
number of failed calls so far, exactly like the mutable attempts variable
of the source: each iteration calls ingest once, returns the DataFrame on
success, and on failure increments the counter and exits with the wrapped
last error once the counter has reached max_attempts. The second
component of the result is the total number of ingest calls performed, an
observable the source exposes through its side effects. -/
def retry_ingest_aux (ingest : Nat → Except String DataFrame)
    (max_attempts : Nat) (attempts : Nat) :
    Except RetryError DataFrame × Nat :=
  match ingest attempts with
  | Except.ok df => (Except.ok df, attempts + 1)
  | Except.error e =>
    if h : max_attempts ≤ attempts + 1 then
      (Except.error ⟨"Max retry attempts reached", e⟩, attempts + 1)
    else
      retry_ingest_aux ingest max_attempts (attempts + 1)
termination_by max_attempts - attempts
decreasing_by omega

/-- Rust retry_ingest (src/ingestion.rs, lines 53-68): runs the retry
loop starting from attempts = 0. -/
def retry_ingest (ingest : Nat → Except String DataFrame)
    (max_attempts : Nat) : Except RetryError DataFrame × Nat :=
  retry_ingest_aux ingest max_attempts 0

/-- Outcome of one spawned insert task: either the task panicked (its
JoinHandle resolves to a tokio JoinError) or it ran to completion and
returned the Except value of its body. -/
inductive TaskOutcome where
  | panicked
  | completed (r : Except String Unit)

/-- futures try_join_all over a list of JoinHandle futures: it fails with
the JoinError of a panicked task, and otherwise collects the values the
tasks completed with - for these tasks a Vec of the per-row insert
Results, errors included. -/
def try_join_all : List TaskOutcome → Except String (List (Except String Unit))
  | [] => Except.ok []
  | TaskOutcome.panicked :: _ => Except.error "JoinError: task panicked"
  | TaskOutcome.completed r :: rest =>
    match try_join_all rest with
    | Except.ok l => Except.ok (r :: l)
    | Except.error e => Except.error e

/-- Rust: series.get(i).context(msg) inside the store_data row loop - a
null (or out-of-range) cell at row i is an extraction error. -/
def get_value (vals : List (Option ℚ)) (i : Nat) (msg : String) :
    Except String ℚ :=
  match vals.getD i none with
  | some v => Except.ok v
  | none => Except.error msg

/-- Rust store_data (src/storage.rs, lines 68-133). The database is
abstracted by insert_result (the Except value the i-th row insert query
resolves to) and task_panics (whether the i-th spawned task panics before
completing). The function first views the twelve named series with their
declared dtypes, then extracts all twelve fields of every row (the first
null aborts with the extraction error, as in the source row loop), then
builds one task outcome per row - a completed task carries its insert
Result wrapped with the anyhow context of the task body - and finally
awaits them with try_join_all. As in the source, the question-mark on
try_join_all only propagates a JoinError: the Vec of per-row insert
Results it yields is discarded, and Ok(()) is returned. -/
def store_data (df : DataFrame) (insert_result : Nat → Except String Unit)
    (task_panics : Nat → Bool) : Except String Unit := do
  let fixed_acidity_series ← (← df.column "fixed acidity").f64
  let volatile_acidity_series ← (← df.column "volatile acidity").f64
  let citric_acid_series ← (← df.column "citric acid").f64
  let residual_sugar_series ← (← df.column "residual sugar").f64
  let chlorides_series ← (← df.column "chlorides").f64
  let free_sulfur_dioxide_series ← (← df.column "free sulfur dioxide").i32
  let total_sulfur_dioxide_series ← (← df.column "total sulfur dioxide").i32
  let density_series ← (← df.column "density").f64
  let ph_series ← (← df.column "pH").f64
  let sulphates_series ← (← df.column "sulphates").f64
  let alcohol_series ← (← df.column "alcohol").f64
  let quality_series ← (← df.column "quality").i32
  let _ ← (List.range df.height).mapM (fun i => do
    let _ ← get_value fixed_acidity_series i "Failed to get fixed acidity"
    let _ ← get_value volatile_acidity_series i "Failed to get volatile acidity"
    let _ ← get_value citric_acid_series i "Failed to get citric acid"
    let _ ← get_value residual_sugar_series i "Failed to get residual sugar"
    let _ ← get_value chlorides_series i "Failed to get chlorides"
    let _ ← get_value free_sulfur_dioxide_series i "Failed to get free sulfur dioxide"
    let _ ← get_value total_sulfur_dioxide_series i "Failed to get total sulfur dioxide"
    let _ ← get_value density_series i "Failed to get density"
    let _ ← get_value ph_series i "Failed to get pH"
    let _ ← get_value sulphates_series i "Failed to get sulphates"
    let _ ← get_value alcohol_series i "Failed to get alcohol"
    let _ ← get_value quality_series i "Failed to get quality"
    (Except.ok () : Except String Unit))
  let tasks := (List.range df.height).map (fun i =>
    if task_panics i then TaskOutcome.panicked
    else TaskOutcome.completed
      (match insert_result i with
       | Except.ok u => Except.ok u
       | Except.error e =>
         Except.error ("Failed to insert data into the database: " ++ e)))
  let _ ← try_join_all tasks
  Except.ok ()

/-- A three-row, twelve-column frame shaped like the repository test CSV
(same column names and dtypes as the store_data queries expect), with
integer-valued cells and no nulls. -/
def dfWine : DataFrame :=
  ⟨[⟨"fixed acidity", DType.f64, [some 7, some 8, some 7]⟩,
    ⟨"volatile acidity", DType.f64, [some 1, some 1, some 2]⟩,
    ⟨"citric acid", DType.f64, [some 0, some 0, some 1]⟩,
    ⟨"residual sugar", DType.f64, [some 2, some 3, some 2]⟩,
    ⟨"chlorides", DType.f64, [some 0, some 1, some 0]⟩,
    ⟨"free sulfur dioxide", DType.i32, [some 11, some 25, some 15]⟩,
    ⟨"total sulfur dioxide", DType.i32, [some 34, some 67, some 40]⟩,
    ⟨"density", DType.f64, [some 1, some 1, some 1]⟩,
    ⟨"pH", DType.f64, [some 3, some 3, some 4]⟩,
    ⟨"sulphates", DType.f64, [some 1, some 1, some 1]⟩,
    ⟨"alcohol", DType.f64, [some 9, some 10, some 9]⟩,
    ⟨"quality", DType.i32, [some 5, some 5, some 6]⟩]⟩

/-- Like dfWine, but the citric acid column holds a null at row 1 while
the two columns clean_data handles are null-free. -/
def dfNullCitric : DataFrame :=
  ⟨[⟨"fixed acidity", DType.f64, [some 7, some 8, some 7]⟩,
    ⟨"volatile acidity", DType.f64, [some 1, some 1, some 2]⟩,
    ⟨"citric acid", DType.f64, [some 0, none, some 1]⟩,
    ⟨"residual sugar", DType.f64, [some 2, some 3, some 2]⟩,
    ⟨"chlorides", DType.f64, [some 0, some 1, some 0]⟩,
    ⟨"free sulfur dioxide", DType.i32, [some 11, some 25, some 15]⟩,
    ⟨"total sulfur dioxide", DType.i32, [some 34, some 67, some 40]⟩,
    ⟨"density", DType.f64, [some 1, some 1, some 1]⟩,
    ⟨"pH", DType.f64, [some 3, some 3, some 4]⟩,
    ⟨"sulphates", DType.f64, [some 1, some 1, some 1]⟩,
    ⟨"alcohol", DType.f64, [some 9, some 10, some 9]⟩,
    ⟨"quality", DType.i32, [some 5, some 5, some 6]⟩]⟩

/-- Like dfWine, but the chlorides column (a semantically non-negative
quantity) holds the negative value -1 at row 0. -/
def dfNegChlorides : DataFrame :=
  ⟨[⟨"fixed acidity", DType.f64, [some 7, some 8, some 7]⟩,
    ⟨"volatile acidity", DType.f64, [some 1, some 1, some 2]⟩,
    ⟨"citric acid", DType.f64, [some 0, some 0, some 1]⟩,
    ⟨"residual sugar", DType.f64, [some 2, some 3, some 2]⟩,
    ⟨"chlorides", DType.f64, [some (-1), some 1, some 0]⟩,
    ⟨"free sulfur dioxide", DType.i32, [some 11, some 25, some 15]⟩,
    ⟨"total sulfur dioxide", DType.i32, [some 34, some 67, some 40]⟩,
    ⟨"density", DType.f64, [some 1, some 1, some 1]⟩,
    ⟨"pH", DType.f64, [some 3, some 3, some 4]⟩,
    ⟨"sulphates", DType.f64, [some 1, some 1, some 1]⟩,
    ⟨"alcohol", DType.f64, [some 9, some 10, some 9]⟩,
    ⟨"quality", DType.i32, [some 5, some 5, some 6]⟩]⟩

/-- A database response in which the insert of row 0 fails (say, a
constraint violation) while every other row inserts fine. -/
def failing_insert : Nat → Except String Unit :=
  fun i => if i = 0 then Except.error "constraint violation" else Except.ok ()

/-- One unfolding step of the retry loop when the current attempt succeeds:
the DataFrame is returned and the total attempt count is attempts + 1. -/
theorem retry_ingest_aux_ok (ingest : Nat → Except String DataFrame)
    (maxA attempts : Nat) (df : DataFrame)
    (h : ingest attempts = Except.ok df) :
    retry_ingest_aux ingest maxA attempts = (Except.ok df, attempts + 1) := by
  unfold retry_ingest_aux
  simp only [h]

/-- One unfolding step of the retry loop when the current attempt fails
and the incremented counter reaches max_attempts: the loop stops with the
wrapped last error. -/
theorem retry_ingest_aux_error_last (ingest : Nat → Except String DataFrame)
    (maxA attempts : Nat) (e : String)
    (h : ingest attempts = Except.error e)
    (hc : maxA ≤ attempts + 1) :
    retry_ingest_aux ingest maxA attempts =
      (Except.error ⟨"Max retry attempts reached", e⟩, attempts + 1) := by
  unfold retry_ingest_aux
  simp only [h]
  rw [dif_pos hc]

/-- One unfolding step of the retry loop when the current attempt fails
and the incremented counter is still below max_attempts: the loop retries. -/
theorem retry_ingest_aux_error_retry (ingest : Nat → Except String DataFrame)
    (maxA attempts : Nat) (e : String)
    (h : ingest attempts = Except.error e)
    (hc : ¬ maxA ≤ attempts + 1) :
    retry_ingest_aux ingest maxA attempts =
      retry_ingest_aux ingest maxA (attempts + 1) := by
  conv_lhs => unfold retry_ingest_aux
  simp only [h]
  rw [dif_neg hc]

/-- When every attempt up to max_attempts fails, the loop started at any
counter value below max_attempts ends with the wrapped error of attempt
max_attempts - 1 after max_attempts total calls. -/
theorem retry_ingest_aux_all_fail (ingest : Nat → Except String DataFrame)
    (E : Nat → String) (maxA : Nat)
    (hfail : ∀ i, i < maxA → ingest i = Except.error (E i)) :
    ∀ n attempts, maxA - attempts ≤ n → attempts < maxA →
      retry_ingest_aux ingest maxA attempts =
        (Except.error ⟨"Max retry attempts reached", E (maxA - 1)⟩, maxA) := by
  intro n
  induction n with
  | zero => intro attempts h1 h2; omega
  | succ n ih =>
    intro attempts h1 h2
    by_cases hc : maxA ≤ attempts + 1
    · have h3 : attempts + 1 = maxA := by omega
      rw [retry_ingest_aux_error_last ingest maxA attempts (E attempts) (hfail attempts h2) hc]
      rw [← h3]
      simp
    · rw [retry_ingest_aux_error_retry ingest maxA attempts (E attempts) (hfail attempts h2) hc]
      exact ih (attempts + 1) (by omega) (by omega)

/-- When attempts 0..k-1 fail and attempt k succeeds with k below
max_attempts, the loop started at any counter value at most k returns the
successful DataFrame after k + 1 total calls. -/
theorem retry_ingest_aux_eventually_ok (ingest : Nat → Except String DataFrame)
    (E : Nat → String) (maxA k : Nat) (df : DataFrame)
    (hk : k < maxA) (hok : ingest k = Except.ok df)
    (hfail : ∀ i, i < k → ingest i = Except.error (E i)) :
    ∀ n attempts, k - attempts ≤ n → attempts ≤ k →
      retry_ingest_aux ingest maxA attempts = (Except.ok df, k + 1) := by
  intro n
  induction n with
  | zero =>
    intro attempts h1 h2
    have h3 : attempts = k := by omega
    subst h3
    exact retry_ingest_aux_ok ingest maxA attempts df hok
  | succ n ih =>
    intro attempts h1 h2
    by_cases he : attempts = k
    · subst he
      exact retry_ingest_aux_ok ingest maxA attempts df hok
    · have hlt : attempts < k := by omega
      rw [retry_ingest_aux_error_retry ingest maxA attempts (E attempts) (hfail attempts hlt) (by omega)]
      exact ih (attempts + 1) (by omega) (by omega)

/-- Every null cell of a column is left unchanged by fill_null when there
are no null cells at all. -/
theorem fill_null_null_free (vals : List (Option ℚ)) (m : ℚ) :
    vals.all (fun v => v.isSome) = true → fill_null vals m = vals := by
  induction vals with
  | nil => intro h; rfl
  | cons v vs ih =>
    intro h
    rw [List.all_cons, Bool.and_eq_true] at h
    unfold fill_null at ih ⊢
    rw [List.map_cons, ih h.2]
    cases v with
    | none => simp at h
    | some x => rfl

/-- Filling one column of a null-free column list changes nothing. -/
theorem map_fill_col_null_free (cols : List Column) (n : String) (m : ℚ) :
    cols.all (fun c => c.vals.all (fun v => v.isSome)) = true →
    cols.map (fun c =>
      if c.name = n then ⟨c.name, c.dtype, fill_null c.vals m⟩ else c) = cols := by
  induction cols with
  | nil => intro h; rfl
  | cons c cs ih =>
    intro h
    rw [List.all_cons, Bool.and_eq_true] at h
    rw [List.map_cons, ih h.2]
    by_cases hc : c.name = n
    · rw [if_pos hc, fill_null_null_free c.vals m h.1]
    · rw [if_neg hc]

/-- Filling one column of a null-free frame changes nothing. -/
theorem with_column_fill_null_null_free (df : DataFrame) (n : String) (m : ℚ)
    (h : df.null_free = true) : with_column_fill_null df n m = df := by
  unfold with_column_fill_null
  unfold DataFrame.null_free at h
  cases df with
  | mk cols =>
    simp only at h ⊢
    rw [map_fill_col_null_free cols n m h]

/-- Claim C1 (exhibiting the code defect): with the two-per-row-dtype wine
frame, a database in which the insert of row 0 fails with a constraint
violation while rows 1 and 2 succeed, and no task panicking, store_data
nevertheless returns Ok(()). In the source, try_join_all runs over tokio
JoinHandle futures, whose error type is JoinError, so the question-mark
after it only propagates task panics; the Vec of per-row insert Results
that try_join_all yields - including the context-wrapped insert error the
task body returned - is discarded, contradicting both the specification
(fail with WriteError::Insert on any per-row failure) and the evident
intent of the task body, which wraps its insert Result with an error
context precisely so that it can be propagated. -/
theorem store_data_swallows_insert_error :
    failing_insert 0 = Except.error "constraint violation"
    ∧ store_data dfWine failing_insert (fun _ => false) = Except.ok () :=
  ⟨rfl, rfl⟩

/-- Claim C2 (exhibiting the code defect): clean_data computes medians and
fills nulls for exactly the two columns "fixed acidity" and "volatile
acidity" - the remaining ten numeric columns sit behind the placeholder
comment "Repeat for other columns..." and are never read or filled. On a
frame whose citric acid column holds a null, clean_data succeeds and
returns the frame with that null still present, contradicting the claim
(and the function doc comment of the source) that every numeric column
has its nulls replaced by the column median and that no nulls remain. -/
theorem clean_data_leaves_citric_null :
    clean_data dfNullCitric = Except.ok dfNullCitric
    ∧ df_contains dfNullCitric "citric acid" none = true :=
  ⟨rfl, by decide⟩

/-- Claim C3 (exhibiting the code defect): normalize_data is
df.lazy().collect() with no expression attached - the scaling step exists
only as a placeholder comment - so the frame comes back unchanged: on the
wine frame the alcohol column still holds the value 10, which lies outside
[0, 1], and the column maximum is not mapped to 1. This contradicts the
claim (and the function doc comment of the source) that each numeric
column is min-max rescaled into [0, 1]. -/
theorem normalize_data_performs_no_scaling :
    normalize_data dfWine = Except.ok dfWine
    ∧ df_contains dfWine "alcohol" (some 10) = true
    ∧ ¬ ((10 : ℚ) ≤ 1) :=
  ⟨rfl, by decide, by norm_num⟩

/-- Claim C4 (exhibiting the code defect): validate_data is
df.lazy().collect() with no filter attached - the row-removal step exists
only as a placeholder comment - so a frame whose chlorides column holds
the negative value -1 comes back with that row (and its negative value)
still present, contradicting the claim (and the function doc comment of
the source) that rows with negative values in non-negative columns are
removed. -/
theorem validate_data_keeps_negative_row :
    validate_data dfNegChlorides = Except.ok dfNegChlorides
    ∧ df_contains dfNegChlorides "chlorides" (some (-1)) = true
    ∧ ((-1 : ℚ) < 0) :=
  ⟨rfl, by decide, by norm_num⟩

/-- Claim C5 counterexample: the claim quantifies over every max_attempts,
but at max_attempts = 0 a permanently failing source is ingested once -
the loop body runs before the exhaustion check - so the number of
attempts performed is 1, not 0 as the claim requires. -/
theorem retry_ingest_zero_counterexample_attempts :
    (retry_ingest (fun _ => Except.error "unreadable") 0).2 = 1 ∧
    ¬ (retry_ingest (fun _ => Except.error "unreadable") 0).2 = 0 := by
  unfold retry_ingest
  rw [retry_ingest_aux_error_last (fun _ => Except.error "unreadable") 0 0 "unreadable" rfl (by omega)]
  exact ⟨rfl, by omega⟩

/-- Claim C5 (amended to max_attempts ≥ 1): for every source, if every
attempt fails then retry_ingest performs exactly max_attempts ingestion
calls and fails with the error of the last attempt wrapped with the
context "Max retry attempts reached"; and if attempts 0..k-1 fail and
attempt k (k < max_attempts) succeeds, retry_ingest returns that success
after exactly k + 1 calls, performing no further attempts. -/
theorem retry_ingest_attempt_counts (ingest : Nat → Except String DataFrame)
    (E : Nat → String) (maxA : Nat) (hpos : 1 ≤ maxA) :
    ((∀ i, i < maxA → ingest i = Except.error (E i)) →
      retry_ingest ingest maxA =
        (Except.error ⟨"Max retry attempts reached", E (maxA - 1)⟩, maxA))
    ∧ (∀ k df, k < maxA → (∀ i, i < k → ingest i = Except.error (E i)) →
        ingest k = Except.ok df →
        retry_ingest ingest maxA = (Except.ok df, k + 1)) := by
  constructor
  · intro hfail
    exact retry_ingest_aux_all_fail ingest E maxA hfail maxA 0 (by omega) (by omega)
  · intro k df hk hfail hok
    exact retry_ingest_aux_eventually_ok ingest E maxA k df hk hok hfail k 0 (by omega) (by omega)

/-- Claim C5 witness: a always-failing source with max_attempts = 3 stops
after exactly 3 attempts with the wrapped error, and a source failing once
then succeeding returns the frame after exactly 2 attempts. -/
theorem retry_ingest_attempt_counts_witness :
    retry_ingest (fun _ => Except.error "boom") 3 =
      (Except.error ⟨"Max retry attempts reached", "boom"⟩, 3)
    ∧ retry_ingest (fun i => if i = 0 then Except.error "boom" else Except.ok dfWine) 3 =
      (Except.ok dfWine, 2) := by
  constructor
  · exact (retry_ingest_attempt_counts (fun _ => Except.error "boom")
      (fun _ => "boom") 3 (by omega)).1 (fun i _ => rfl)
  · exact (retry_ingest_attempt_counts
      (fun i => if i = 0 then Except.error "boom" else Except.ok dfWine)
      (fun _ => "boom") 3 (by omega)).2 1 dfWine (by omega)
      (fun i hi => by
        have h0 : i = 0 := by omega
        subst h0
        rfl)
      rfl

/-- Claim C6 counterexample: with max_attempts = 0 and a source that
succeeds, retry_ingest returns the successful frame after one ingestion
call - the underlying ingest IS invoked, and the call does not fail -
contradicting the claim that max_attempts = 0 fails immediately with zero
ingestion attempts. -/
theorem retry_ingest_zero_still_ingests :
    retry_ingest (fun _ => Except.ok dfWine) 0 = (Except.ok dfWine, 1) := by
  unfold retry_ingest
  rw [retry_ingest_aux_ok (fun _ => Except.ok dfWine) 0 0 dfWine rfl]

/-- Claim C6 (amended): retry_ingest with max_attempts = 0 behaves exactly
like max_attempts = 1 - it performs exactly one ingestion attempt,
returning its success or failing with its wrapped error - because the
loop body runs once before the exhaustion check; and max_attempts = 1
performs exactly one attempt. -/
theorem retry_ingest_zero_equals_one (ingest : Nat → Except String DataFrame) :
    retry_ingest ingest 0 = retry_ingest ingest 1
    ∧ (retry_ingest ingest 0).2 = 1 := by
  unfold retry_ingest
  cases h : ingest 0 with
  | ok df =>
    rw [retry_ingest_aux_ok ingest 0 0 df h, retry_ingest_aux_ok ingest 1 0 df h]
    exact ⟨rfl, rfl⟩
  | error e =>
    rw [retry_ingest_aux_error_last ingest 0 0 e h (by omega),
        retry_ingest_aux_error_last ingest 1 0 e h (by omega)]
    exact ⟨rfl, rfl⟩

/-- Claim C7: transform_data equals the composition clean, then normalize,
then validate, strictly in that order, each sub-stage producing a new
frame, with the first failing sub-stage short-circuiting the rest - the
spec-side pipeline transform_pipeline_spec makes the stop-on-first-failure
shape explicit. -/
theorem transform_data_is_pipeline (df : DataFrame) :
    transform_data df = transform_pipeline_spec df := by
  unfold transform_data transform_pipeline_spec
  cases clean_data df <;> rfl

/-- Claim C8: clean_data is idempotent on null-free input - whenever the
frame has no null cell in any column and clean_data succeeds on it, the
output equals the input, and running clean_data again returns the same
frame. -/
theorem clean_data_idempotent_on_null_free (df df' : DataFrame)
    (hnf : df.null_free = true) (h : clean_data df = Except.ok df') :
    df' = df ∧ clean_data df' = Except.ok df' := by
  have key : df' = df := by
    unfold clean_data at h
    cases h1 : median_value df "fixed acidity" with
    | error e =>
      rw [h1] at h
      have h' : (Except.error e : Except String DataFrame) = Except.ok df' := h
      cases h'
    | ok m1 =>
      cases h2 : median_value df "volatile acidity" with
      | error e =>
        rw [h1, h2] at h
        have h' : (Except.error e : Except String DataFrame) = Except.ok df' := h
        cases h'
      | ok m2 =>
        rw [h1, h2] at h
        have h' : Except.ok (with_column_fill_null
            (with_column_fill_null df "fixed acidity" m1) "volatile acidity" m2) =
            Except.ok df' := h
        rw [with_column_fill_null_null_free df "fixed acidity" m1 hnf] at h'
        rw [with_column_fill_null_null_free df "volatile acidity" m2 hnf] at h'
        injection h' with h''
        exact h''.symm
  refine ⟨key, ?_⟩
  rw [key] at h ⊢
  exact h

/-- Claim C8 witness: the null-free wine frame is a fixed point of
clean_data. -/
theorem clean_data_idempotent_witness :
    dfWine = dfWine ∧ clean_data dfWine = Except.ok dfWine :=
  clean_data_idempotent_on_null_free dfWine dfWine (by decide) rfl

/-- Claim C9: normalize_data is the identity transformation - it succeeds
on every frame and returns it unchanged, value for value, in every column
(the source body is df.lazy().collect() with no expression attached). -/
theorem normalize_data_is_identity (df : DataFrame) :
    normalize_data df = Except.ok df :=
  rfl

/-- Claim C10: validate_data is the identity transformation - it succeeds
on every frame and returns it unchanged, so in particular the row count is
exactly preserved and no row is ever filtered out (the source body is
df.lazy().collect() with no filter attached). -/
theorem validate_data_is_identity (df : DataFrame) :
    validate_data df = Except.ok df :=
  rfl
